import Mathlib

/-!
Shallow embedding of mitodl/vault-raft-backup (Go).

The program is a single linear pipeline: parse environment configuration,
build and authenticate a Vault client (vaultClientConfig), stream a Raft
snapshot into a local staging file (vaultRaftSnapshot), upload the staged
file to S3 (snapshotS3Upload), and report the upload location (main).
Every external collaborator (Vault server, filesystem, AWS) is modelled by
an oracle record Ext fixing the outcome of each external operation, and the
run threads an explicit state St recording the staging file, the open
descriptors, and counters of the externally visible calls.
-/

namespace VaultRaftBackup

/-- Go strconv.ParseBool: accepts 1, t, T, TRUE, true, True for true and
0, f, F, FALSE, false, False for false; every other string is a parse
error, modelled as none. -/
def parseBool (s : String) : Option Bool :=
  if s = "1" || s = "t" || s = "T" || s = "TRUE" || s = "true" || s = "True" then
    some true
  else if s = "0" || s = "f" || s = "F" || s = "FALSE" || s = "false" || s = "False" then
    some false
  else
    none

/-- Go path/filepath.Base on a unix path: empty path gives ".", otherwise
strip trailing slashes; if nothing remains the path was all slashes and the
result is "/", otherwise the result is the last slash-separated element. -/
def filepathBase (path : String) : String :=
  if path = "" then "."
  else
    let rcs := path.toList.reverse.dropWhile (fun c => c = '/')
    if rcs.isEmpty then "/"
    else String.mk ((rcs.takeWhile (fun c => c ≠ '/')).reverse)

/-- VaultConfig from main.go: vault address, token (or the aws-iam
delegation sentinel), staging path, TLS insecure (skip-verify) flag. -/
structure VaultConfig where
  vaultAddr : String
  token : String
  snapshotPath : String
  insecure : Bool
  deriving DecidableEq

/-- AWSConfig from main.go; s3Pfx embeds the Go field s3Prefix, the key
prefix prepended to the snapshot base name. -/
structure AWSConfig where
  s3Bucket : String
  s3Pfx : String
  s3Region : String
  deriving DecidableEq

/-- The process environment variables read once at startup by main. -/
structure Env where
  vaultSkipVerify : String
  vaultAddr : String
  vaultToken : String
  vaultSnapshotPath : String
  s3Bucket : String
  s3Pfx : String
  awsRegion : String
  deriving DecidableEq

/-- Oracle fixing the outcome of every external operation of one run:
TLS configuration, client construction, AWS IAM auth initialization and
login, opening the staging file for write, the Raft snapshot stream (with
the payload it writes on success and the bytes it wrote before a mid-stream
failure), the first close of the write descriptor, opening the staging file
for read, the S3 upload call (with the location it reports), and the close
of the read descriptor. -/
structure Ext where
  configureTLSOk : Bool
  newClientOk : Bool
  awsAuthInitOk : Bool
  loginErr : Bool
  loginAuthInfoNil : Bool
  openWriteOk : Bool
  snapshotOk : Bool
  snapshotPayload : List Nat
  snapshotErrWritten : List Nat
  closeWriteOk : Bool
  openReadOk : Bool
  uploadOk : Bool
  uploadLocation : String
  closeReadOk : Bool
  deriving DecidableEq

/-- Run state: content of the staging file on disk (none when absent),
whether the write/read descriptors are open, how many times Close was
invoked on each, how many upload and login (auth network) calls were made,
the list of upload calls issued as (bucket, key, body) triples, and the
Insecure flag most recently handed to ConfigureTLS (none before the first
ConfigureTLS call). -/
structure St where
  content : Option (List Nat)
  writeOpen : Bool
  writeCloseCount : Nat
  readOpen : Bool
  readCloseCount : Nat
  uploadCalls : Nat
  loginCalls : Nat
  uploads : List (String × String × List Nat)
  tlsConfigured : Option Bool
  deriving DecidableEq

/-- The initial state: no staging file, no descriptors, no calls, no TLS
configuration performed yet. -/
def St.init : St :=
  { content := none, writeOpen := false, writeCloseCount := 0,
    readOpen := false, readCloseCount := 0,
    uploadCalls := 0, loginCalls := 0, uploads := [], tlsConfigured := none }

/-- Error taxonomy covering the error returns of the Go functions. -/
inductive VError
  | connectionConfig
  | clientInit
  | awsAuthInit
  | awsLogin
  | noAuthInfo
  | invalidToken
  | snapshotOpen
  | snapshotStream
  | uploadOpen
  | uploadTransfer
  deriving DecidableEq

/-- Result of an embedded Go function: a value, an error returned to the
caller, or abrupt process termination via log.Fatalln inside the function
(or inside a deferred call running at its return). -/
inductive Res (α : Type)
  | ok (a : α)
  | err (e : VError)
  | fatal
  deriving DecidableEq

/-- The configured Vault client handle: address, the static token set by
SetToken when token auth was used, whether AWS IAM login authenticated it,
and the TLS Insecure flag passed to ConfigureTLS. -/
structure Client where
  addr : String
  tokenSet : Option String
  authedViaIAM : Bool
  insecureTLS : Bool
  deriving DecidableEq

/-- An os.File handle; Name() returns the path it was opened with. -/
structure FileHandle where
  name : String
  deriving DecidableEq

/-- s3manager.UploadOutput restricted to the Location field main reads. -/
structure UploadOutput where
  location : String
  deriving DecidableEq

/-- os.File.Close on the staging write descriptor: the first Close releases
the descriptor and reports the flush outcome from the oracle; any later
Close finds the descriptor already closed and reports ErrClosed. The Bool
result is true exactly when Close returned an error. -/
def closeWriteFd (ext : Ext) (s : St) : St × Bool :=
  if s.writeOpen then
    ({ s with writeOpen := false, writeCloseCount := s.writeCloseCount + 1 },
      !ext.closeWriteOk)
  else
    ({ s with writeCloseCount := s.writeCloseCount + 1 }, true)

/-- os.File.Close on the read descriptor, same semantics as closeWriteFd. -/
def closeReadFd (ext : Ext) (s : St) : St × Bool :=
  if s.readOpen then
    ({ s with readOpen := false, readCloseCount := s.readCloseCount + 1 },
      !ext.closeReadOk)
  else
    ({ s with readCloseCount := s.readCloseCount + 1 }, true)

/-- snapshotFileClose from main.go applied to the write descriptor: call
Close, and when Close errors, log the failure and call log.Fatalln, which
terminates the process. The Bool result is true when the process survives. -/
def snapshotFileCloseW (ext : Ext) (s : St) : St × Bool :=
  let c := closeWriteFd ext s
  (c.1, !c.2)

/-- snapshotFileClose from main.go applied to the read descriptor. -/
def snapshotFileCloseR (ext : Ext) (s : St) : St × Bool :=
  let c := closeReadFd ext s
  (c.1, !c.2)

/-- vaultClientConfig from main.go: configure TLS with the insecure flag,
build the client, then authenticate: when the token equals the aws-iam
delegation sentinel, initialize AWS IAM auth and perform a network login
(failing when initialization fails, the login call errors, or the login
returns no auth info); otherwise require a token of exactly 26 bytes and
set it directly on the client with no network call. The Insecure flag
handed to ConfigureTLS is recorded in the run state. -/
def vaultClientConfig (ext : Ext) (config : VaultConfig) (s : St) :
    St × Res Client :=
  let s0 : St := { s with tlsConfigured := some config.insecure }
  if !ext.configureTLSOk then
    (s0, Res.err VError.connectionConfig)
  else if !ext.newClientOk then
    (s0, Res.err VError.clientInit)
  else if config.token = "aws-iam" then
    if !ext.awsAuthInitOk then
      (s0, Res.err VError.awsAuthInit)
    else
      let s1 : St := { s0 with loginCalls := s0.loginCalls + 1 }
      if ext.loginErr then
        (s1, Res.err VError.awsLogin)
      else if ext.loginAuthInfoNil then
        (s1, Res.err VError.noAuthInfo)
      else
        (s1, Res.ok { addr := config.vaultAddr
                      tokenSet := none
                      authedViaIAM := true
                      insecureTLS := config.insecure })
  else if config.token.utf8ByteSize ≠ 26 then
    (s0, Res.err VError.invalidToken)
  else
    (s0, Res.ok { addr := config.vaultAddr
                  tokenSet := some config.token
                  authedViaIAM := false
                  insecureTLS := config.insecure })

/-- vaultRaftSnapshot from main.go: open the staging path with
O_CREATE, O_WRONLY and O_TRUNC (truncating any prior content), defer
snapshotFileClose, stream the Raft snapshot into the file; on stream error
call Close explicitly (discarding its result), log, and return the error,
after which the deferred snapshotFileClose closes the already-closed
descriptor, gets ErrClosed, and terminates the process; on stream success
return the file handle, with the deferred snapshotFileClose closing the
descriptor (terminating the process when that close fails). -/
def vaultRaftSnapshot (ext : Ext) (client : Client) (snapshotPath : String)
    (s : St) : St × Res FileHandle :=
  if !ext.openWriteOk then
    (s, Res.err VError.snapshotOpen)
  else
    let s1 : St := { s with
      content := some []
      writeOpen := true
      writeCloseCount := 0 }
    if ext.snapshotOk then
      let s2 : St := { s1 with content := some ext.snapshotPayload }
      let c := snapshotFileCloseW ext s2
      if c.2 then (c.1, Res.ok { name := snapshotPath }) else (c.1, Res.fatal)
    else
      let s2 : St := { s1 with content := some ext.snapshotErrWritten }
      let c1 := closeWriteFd ext s2
      let c2 := snapshotFileCloseW ext c1.1
      if c2.2 then (c2.1, Res.err VError.snapshotStream) else (c2.1, Res.fatal)

/-- snapshotS3Upload from main.go: open the staging path for reading (an
absent file or a filesystem error fails the open), defer snapshotFileClose,
build the AWS session and uploader (session.Must panics only when
session.NewSession errors, which a static region config never does, so it
is modelled as always succeeding), derive the key as s3Prefix + "-" +
filepath.Base(path), issue the upload call with the file as body, and
return the upload result or the transfer error; the deferred
snapshotFileClose closes the read descriptor on either path, terminating
the process when that close fails. -/
def snapshotS3Upload (ext : Ext) (config : AWSConfig) (snapshotPath : String)
    (s : St) : St × Res UploadOutput :=
  if !(ext.openReadOk && s.content.isSome) then
    (s, Res.err VError.uploadOpen)
  else
    let s1 : St := { s with readOpen := true, readCloseCount := 0 }
    let key := config.s3Pfx ++ "-" ++ filepathBase snapshotPath
    let body := s1.content.getD []
    let s2 : St := { s1 with
      uploadCalls := s1.uploadCalls + 1
      uploads := s1.uploads ++ [(config.s3Bucket, key, body)] }
    if ext.uploadOk then
      let c := snapshotFileCloseR ext s2
      if c.2 then (c.1, Res.ok { location := ext.uploadLocation })
      else (c.1, Res.fatal)
    else
      let c := snapshotFileCloseR ext s2
      if c.2 then (c.1, Res.err VError.uploadTransfer) else (c.1, Res.fatal)

/-- Outcome of one whole process run: success printing the upload location
and exiting zero, or abrupt termination with a non-zero status. -/
inductive MainResult
  | success (location : String)
  | fatalExit
  deriving DecidableEq

/-- The VaultConfig record main builds from the environment once
VAULT_SKIP_VERIFY has been parsed to the insecure flag. -/
def envVaultConfig (env : Env) (insecure : Bool) : VaultConfig :=
  { vaultAddr := env.vaultAddr, token := env.vaultToken,
    snapshotPath := env.vaultSnapshotPath, insecure := insecure }

/-- The AWSConfig record main builds from the environment. -/
def envAWSConfig (env : Env) : AWSConfig :=
  { s3Bucket := env.s3Bucket, s3Pfx := env.s3Pfx, s3Region := env.awsRegion }

/-- main from main.go: parse VAULT_SKIP_VERIFY with strconv.ParseBool
(log.Fatalln on an unparsable value), build the two config records from the
environment, then run vaultClientConfig, vaultRaftSnapshot on the staging
path, and snapshotS3Upload on the snapshot file name, terminating with a
non-zero status as soon as any stage fails, and otherwise printing the
upload location and exiting zero. -/
def mainRun (ext : Ext) (env : Env) (s : St) : St × MainResult :=
  match parseBool env.vaultSkipVerify with
  | none => (s, MainResult.fatalExit)
  | some insecure =>
    match vaultClientConfig ext (envVaultConfig env insecure) s with
    | (s1, Res.err _) => (s1, MainResult.fatalExit)
    | (s1, Res.fatal) => (s1, MainResult.fatalExit)
    | (s1, Res.ok vaultClient) =>
      match vaultRaftSnapshot ext vaultClient
          (envVaultConfig env insecure).snapshotPath s1 with
      | (s2, Res.err _) => (s2, MainResult.fatalExit)
      | (s2, Res.fatal) => (s2, MainResult.fatalExit)
      | (s2, Res.ok snapshotFile) =>
        match snapshotS3Upload ext (envAWSConfig env) snapshotFile.name s2 with
        | (s3, Res.err _) => (s3, MainResult.fatalExit)
        | (s3, Res.fatal) => (s3, MainResult.fatalExit)
        | (s3, Res.ok uploadResult) => (s3, MainResult.success uploadResult.location)

/-! ### Concrete fixtures

Oracles, environments and configs used to evaluate the pipeline at
concrete inputs. -/

/-- A fixture oracle in which every external operation succeeds: the
stream writes payload [1, 2, 3], a failed stream would have written [9],
and the upload reports location LOC. -/
def extAll : Ext :=
  { configureTLSOk := true, newClientOk := true, awsAuthInitOk := true,
    loginErr := false, loginAuthInfoNil := false, openWriteOk := true,
    snapshotOk := true, snapshotPayload := [1, 2, 3],
    snapshotErrWritten := [9], closeWriteOk := true, openReadOk := true,
    uploadOk := true, uploadLocation := "LOC", closeReadOk := true }

/-- A fixture environment with a 26-byte token, staging path /tmp/snap.out
and key prefix nightly. -/
def envA : Env :=
  { vaultSkipVerify := "false", vaultAddr := "https://vault:8200",
    vaultToken := "abcdefghijklmnopqrstuvwxyz",
    vaultSnapshotPath := "/tmp/snap.out", s3Bucket := "bkt",
    s3Pfx := "nightly", awsRegion := "us-east-1" }

/-- The fixture vault config with the valid 26-byte token. -/
def cfgTok : VaultConfig :=
  { vaultAddr := "https://vault:8200",
    token := "abcdefghijklmnopqrstuvwxyz",
    snapshotPath := "/tmp/snap.out", insecure := false }

/-- A fixture vault config whose token abc is not 26 bytes long. -/
def cfgShort : VaultConfig :=
  { cfgTok with token := "abc" }

/-- A fixture vault config using the aws-iam delegation sentinel. -/
def cfgIAM : VaultConfig :=
  { cfgTok with token := "aws-iam" }

/-- A fixture client handle. -/
def clientA : Client :=
  { addr := "https://vault:8200",
    tokenSet := some "abcdefghijklmnopqrstuvwxyz",
    authedViaIAM := false, insecureTLS := false }

/-! ### Stage lemmas

Inversion and frame lemmas for the three pipeline stages, shared by the
claim theorems below. -/

/-- vaultClientConfig only touches loginCalls and tlsConfigured: the file,
descriptor, and upload components of the state pass through unchanged. -/
theorem vaultClientConfig_frame (ext : Ext) (config : VaultConfig) (s : St) :
    (vaultClientConfig ext config s).1.content = s.content ∧
    (vaultClientConfig ext config s).1.writeOpen = s.writeOpen ∧
    (vaultClientConfig ext config s).1.writeCloseCount = s.writeCloseCount ∧
    (vaultClientConfig ext config s).1.readOpen = s.readOpen ∧
    (vaultClientConfig ext config s).1.readCloseCount = s.readCloseCount ∧
    (vaultClientConfig ext config s).1.uploadCalls = s.uploadCalls ∧
    (vaultClientConfig ext config s).1.uploads = s.uploads := by
  unfold vaultClientConfig
  repeat' split
  all_goals simp

/-- When vaultClientConfig returns a client, the client records the
configured address and the TLS insecure flag, the run state records the
flag handed to ConfigureTLS, and everything except loginCalls and
tlsConfigured is unchanged. -/
theorem vaultClientConfig_ok (ext : Ext) (config : VaultConfig) (s s1 : St)
    (c : Client) (h : vaultClientConfig ext config s = (s1, Res.ok c)) :
    c.addr = config.vaultAddr ∧ c.insecureTLS = config.insecure ∧
    s1.tlsConfigured = some config.insecure ∧
    s1.content = s.content ∧ s1.writeOpen = s.writeOpen ∧
    s1.writeCloseCount = s.writeCloseCount ∧ s1.readOpen = s.readOpen ∧
    s1.readCloseCount = s.readCloseCount ∧ s1.uploadCalls = s.uploadCalls ∧
    s1.uploads = s.uploads := by
  unfold vaultClientConfig at h
  repeat' split at h
  all_goals injection h with h1 h2
  all_goals first
    | exact Res.noConfusion h2
    | (injection h2 with h3; subst h1; subst h3; simp_all)

/-- vaultClientConfig never terminates the process itself. -/
theorem vaultClientConfig_no_fatal (ext : Ext) (config : VaultConfig) (s : St) :
    (vaultClientConfig ext config s).2 ≠ Res.fatal := by
  unfold vaultClientConfig
  repeat' split
  all_goals simp

/-- When vaultRaftSnapshot returns a file handle, every external step of
the stage succeeded, the handle names the staging path, and the state holds
the full snapshot payload in a file whose write descriptor was closed
exactly once by the deferred snapshotFileClose. -/
theorem vaultRaftSnapshot_ok (ext : Ext) (client : Client) (p : String)
    (s s2 : St) (fh : FileHandle)
    (h : vaultRaftSnapshot ext client p s = (s2, Res.ok fh)) :
    ext.openWriteOk = true ∧ ext.snapshotOk = true ∧ ext.closeWriteOk = true ∧
    fh = { name := p } ∧
    s2 = { s with content := some ext.snapshotPayload, writeOpen := false,
                  writeCloseCount := 1 } := by
  cases hop : ext.openWriteOk <;> cases hsn : ext.snapshotOk <;>
    cases hcl : ext.closeWriteOk <;>
    simp [vaultRaftSnapshot, snapshotFileCloseW, closeWriteFd, hop, hsn, hcl] at h <;>
    simp_all

/-- When the Raft snapshot stream call fails after a successful open, the
explicit Close releases the descriptor, the deferred snapshotFileClose
closes the already-closed descriptor, gets an error, and terminates the
process: Close ran twice, the file is closed, and the outcome is fatal. -/
theorem vaultRaftSnapshot_streamFail (ext : Ext) (client : Client)
    (p : String) (s : St) (hOpen : ext.openWriteOk = true)
    (hSnap : ext.snapshotOk = false) :
    vaultRaftSnapshot ext client p s =
      ({ s with content := some ext.snapshotErrWritten, writeOpen := false,
                writeCloseCount := 2 }, Res.fatal) := by
  simp [vaultRaftSnapshot, snapshotFileCloseW, closeWriteFd, hOpen, hSnap]

/-- vaultRaftSnapshot never touches the read descriptor, the upload
bookkeeping, the login counter, or the TLS record. -/
theorem vaultRaftSnapshot_frame (ext : Ext) (client : Client) (p : String)
    (s : St) :
    (vaultRaftSnapshot ext client p s).1.readOpen = s.readOpen ∧
    (vaultRaftSnapshot ext client p s).1.readCloseCount = s.readCloseCount ∧
    (vaultRaftSnapshot ext client p s).1.uploadCalls = s.uploadCalls ∧
    (vaultRaftSnapshot ext client p s).1.loginCalls = s.loginCalls ∧
    (vaultRaftSnapshot ext client p s).1.uploads = s.uploads ∧
    (vaultRaftSnapshot ext client p s).1.tlsConfigured = s.tlsConfigured := by
  cases hop : ext.openWriteOk <;> cases hsn : ext.snapshotOk <;>
    cases hcl : ext.closeWriteOk <;>
    simp [vaultRaftSnapshot, snapshotFileCloseW, closeWriteFd, hop, hsn, hcl]

/-- When snapshotS3Upload returns an upload result, the open, the transfer,
and the deferred close all succeeded, the result carries the location the
storage client reported, and the state records exactly one more upload call
whose key is the configured key prefix, a dash, and the base name of the
staged file, and whose body is the staged content. -/
theorem snapshotS3Upload_ok (ext : Ext) (config : AWSConfig) (p : String)
    (s s3 : St) (u : UploadOutput)
    (h : snapshotS3Upload ext config p s = (s3, Res.ok u)) :
    ext.openReadOk = true ∧ s.content.isSome = true ∧ ext.uploadOk = true ∧
    ext.closeReadOk = true ∧ u = { location := ext.uploadLocation } ∧
    s3 = { s with readOpen := false, readCloseCount := 1,
                  uploadCalls := s.uploadCalls + 1,
                  uploads := s.uploads ++ [(config.s3Bucket,
                    config.s3Pfx ++ "-" ++ filepathBase p,
                    s.content.getD [])] } := by
  cases hor : ext.openReadOk <;> cases hcs : s.content.isSome <;>
    cases hup : ext.uploadOk <;> cases hcl : ext.closeReadOk <;>
    simp [snapshotS3Upload, snapshotFileCloseR, closeReadFd, hor, hcs, hup, hcl] at h <;>
    simp_all

/-- When the remote transfer call fails, snapshotS3Upload never returns an
upload result: it returns the transfer error (or terminates the process
when the deferred close also fails). -/
theorem snapshotS3Upload_transferFail (ext : Ext) (config : AWSConfig)
    (p : String) (s s3 : St) (u : UploadOutput)
    (hUp : ext.uploadOk = false)
    (h : snapshotS3Upload ext config p s = (s3, Res.ok u)) : False := by
  have h1 := (snapshotS3Upload_ok ext config p s s3 u h).2.2.1
  rw [hUp] at h1
  exact Bool.noConfusion h1

/-- A successful run factors exactly through the three stages: the skip
verify flag parsed, vaultClientConfig, vaultRaftSnapshot and
snapshotS3Upload each returned ok, and the printed location is the one the
upload result carries. -/
theorem mainRun_success (ext : Ext) (env : Env) (s sOut : St) (loc : String)
    (h : mainRun ext env s = (sOut, MainResult.success loc)) :
    ∃ b s1 c s2 fh u,
      parseBool env.vaultSkipVerify = some b ∧
      vaultClientConfig ext (envVaultConfig env b) s = (s1, Res.ok c) ∧
      vaultRaftSnapshot ext c env.vaultSnapshotPath s1 = (s2, Res.ok fh) ∧
      snapshotS3Upload ext (envAWSConfig env) fh.name s2 = (sOut, Res.ok u) ∧
      loc = u.location := by
  unfold mainRun at h
  split at h
  next => simp at h
  next insecure hb =>
    split at h
    next s1 e hvc => simp at h
    next s1 hvc => simp at h
    next s1 c hvc =>
      split at h
      next s2 e hrs => simp at h
      next s2 hrs => simp at h
      next s2 fh hrs =>
        split at h
        next s3 e hup => simp at h
        next s3 hup => simp at h
        next s3 u hup =>
          obtain ⟨h1, h2⟩ := Prod.mk.injEq .. |>.mp h
          rw [MainResult.success.injEq] at h2
          subst h1
          exact ⟨insecure, s1, c, s2, fh, u, hb, hvc,
            by simpa [envVaultConfig] using hrs, hup, h2.symm⟩

/-! ### Claim theorems -/

/-- C1: on every successful run the single upload call uses the bucket from
the transfer config and the destination key equal to the key prefix, a
dash, and the base name of the staging path, with the snapshot payload as
body; and the pipeline leaves the staging file at that path holding the
payload with both its descriptors closed. -/
theorem upload_key_and_staged_file (ext : Ext) (env : Env) (s sOut : St)
    (loc : String) (h : mainRun ext env s = (sOut, MainResult.success loc)) :
    sOut.uploads = s.uploads ++
      [(env.s3Bucket, env.s3Pfx ++ "-" ++ filepathBase env.vaultSnapshotPath,
        ext.snapshotPayload)] ∧
    sOut.content = some ext.snapshotPayload ∧
    sOut.writeOpen = false ∧ sOut.readOpen = false := by
  obtain ⟨b, s1, c, s2, fh, u, hb, hvc, hrs, hup, hloc⟩ :=
    mainRun_success ext env s sOut loc h
  obtain ⟨-, -, hvcTls, hvcC, -, -, -, -, -, hvcU⟩ :=
    vaultClientConfig_ok ext (envVaultConfig env b) s s1 c hvc
  obtain ⟨-, -, -, hfh, hs2⟩ :=
    vaultRaftSnapshot_ok ext c env.vaultSnapshotPath s1 s2 fh hrs
  obtain ⟨-, -, -, -, -, hs3⟩ :=
    snapshotS3Upload_ok ext (envAWSConfig env) fh.name s2 sOut u hup
  subst hs2 hs3 hfh
  simp_all [envAWSConfig]

/-- C2: with TLS configuration and client construction succeeding, a
credential different from the aws-iam delegation sentinel is validated
purely locally: when its byte length is not 26 the stage fails with the
invalid-token error, and when it is exactly 26 the credential is set as the
session token on the returned client; in both cases the login counter is
untouched, so no network call is made. -/
theorem token_credential_validation (ext : Ext) (config : VaultConfig)
    (s : St) (hTLS : ext.configureTLSOk = true) (hNC : ext.newClientOk = true)
    (hTok : config.token ≠ "aws-iam") :
    (config.token.utf8ByteSize ≠ 26 →
      vaultClientConfig ext config s =
        ({ s with tlsConfigured := some config.insecure },
          Res.err VError.invalidToken)) ∧
    (config.token.utf8ByteSize = 26 →
      vaultClientConfig ext config s =
        ({ s with tlsConfigured := some config.insecure },
          Res.ok { addr := config.vaultAddr
                   tokenSet := some config.token
                   authedViaIAM := false
                   insecureTLS := config.insecure })) ∧
    (vaultClientConfig ext config s).1.loginCalls = s.loginCalls := by
  refine ⟨fun hlen => ?_, fun hlen => ?_, ?_⟩
  · simp [vaultClientConfig, hTLS, hNC, hTok, hlen]
  · simp [vaultClientConfig, hTLS, hNC, hTok, hlen]
  · by_cases hlen : config.token.utf8ByteSize = 26 <;>
      simp [vaultClientConfig, hTLS, hNC, hTok, hlen]

/-- C3: for the aws-iam delegation sentinel the stage runs the identity
provider login flow instead of the 26-byte token check: when initialization
succeeds a login network call is made; any of the three failure points
(initialization error, login error, missing auth info) means the stage
never returns a client; and when all three succeed it returns an
IAM-authenticated client even though the sentinel is not 26 bytes long. -/
theorem sentinel_delegates_to_iam (ext : Ext) (config : VaultConfig) (s : St)
    (hTLS : ext.configureTLSOk = true) (hNC : ext.newClientOk = true)
    (hTok : config.token = "aws-iam") :
    (ext.awsAuthInitOk = true →
      (vaultClientConfig ext config s).1.loginCalls = s.loginCalls + 1) ∧
    (ext.awsAuthInitOk = false ∨ ext.loginErr = true ∨
        ext.loginAuthInfoNil = true →
      ∀ s1 c, vaultClientConfig ext config s ≠ (s1, Res.ok c)) ∧
    (ext.awsAuthInitOk = true → ext.loginErr = false →
      ext.loginAuthInfoNil = false →
      vaultClientConfig ext config s =
        ({ s with tlsConfigured := some config.insecure
                  loginCalls := s.loginCalls + 1 },
          Res.ok { addr := config.vaultAddr
                   tokenSet := none
                   authedViaIAM := true
                   insecureTLS := config.insecure })) := by
  refine ⟨fun hInit => ?_, fun hFail s1 c => ?_, fun hInit hLog hNil => ?_⟩
  · cases hLog : ext.loginErr <;> cases hNil : ext.loginAuthInfoNil <;>
      simp [vaultClientConfig, hTLS, hNC, hTok, hInit, hLog, hNil]
  · rcases hFail with hInit | hLog | hNil
    · simp [vaultClientConfig, hTLS, hNC, hTok, hInit]
    · cases hInit : ext.awsAuthInitOk <;>
        simp [vaultClientConfig, hTLS, hNC, hTok, hInit, hLog]
    · cases hInit : ext.awsAuthInitOk <;> cases hLog : ext.loginErr <;>
        simp [vaultClientConfig, hTLS, hNC, hTok, hInit, hLog, hNil]
  · simp [vaultClientConfig, hTLS, hNC, hTok, hInit, hLog, hNil]

/-- C4: once the staging file is open, a successful stream leaves a closed
file holding the complete snapshot payload before the handle is returned,
while a mid-stream failure still leaves the file closed and never returns a
handle, so the partial contents cannot be handed to the upload stage. -/
theorem snapshot_file_lifecycle (ext : Ext) (client : Client) (p : String)
    (s : St) (hOpen : ext.openWriteOk = true) :
    (ext.snapshotOk = true → ext.closeWriteOk = true →
      vaultRaftSnapshot ext client p s =
        ({ s with content := some ext.snapshotPayload, writeOpen := false,
                  writeCloseCount := 1 }, Res.ok { name := p })) ∧
    (ext.snapshotOk = false →
      (vaultRaftSnapshot ext client p s).1.writeOpen = false ∧
      ∀ s2 fh, vaultRaftSnapshot ext client p s ≠ (s2, Res.ok fh)) := by
  constructor
  · intro hSnap hClose
    simp [vaultRaftSnapshot, snapshotFileCloseW, closeWriteFd, hOpen, hSnap,
      hClose]
  · intro hSnap
    rw [vaultRaftSnapshot_streamFail ext client p s hOpen hSnap]
    exact ⟨rfl, by simp⟩

/-- C10: when the stream call fails after a successful open, Close runs
twice on the staging file descriptor, once explicitly on the error branch
and once in the deferred snapshotFileClose, whose close error terminates
the process, so the stage ends fatally instead of merely returning the
snapshot error. -/
theorem stream_failure_double_close (ext : Ext) (client : Client)
    (p : String) (s : St) (hOpen : ext.openWriteOk = true)
    (hSnap : ext.snapshotOk = false) :
    (vaultRaftSnapshot ext client p s).1.writeCloseCount = 2 ∧
    (vaultRaftSnapshot ext client p s).2 = Res.fatal := by
  rw [vaultRaftSnapshot_streamFail ext client p s hOpen hSnap]
  exact ⟨rfl, rfl⟩

/-- snapshotS3Upload never touches the staging file content, the write
descriptor bookkeeping, the login counter, or the TLS record. -/
theorem snapshotS3Upload_frame (ext : Ext) (config : AWSConfig) (p : String)
    (s : St) :
    (snapshotS3Upload ext config p s).1.content = s.content ∧
    (snapshotS3Upload ext config p s).1.writeOpen = s.writeOpen ∧
    (snapshotS3Upload ext config p s).1.writeCloseCount = s.writeCloseCount ∧
    (snapshotS3Upload ext config p s).1.loginCalls = s.loginCalls ∧
    (snapshotS3Upload ext config p s).1.tlsConfigured = s.tlsConfigured := by
  cases hor : ext.openReadOk <;> cases hcs : s.content.isSome <;>
    cases hup : ext.uploadOk <;> cases hcl : ext.closeReadOk <;>
    simp [snapshotS3Upload, snapshotFileCloseR, closeReadFd, hor, hcs, hup, hcl]

/-- Every branch of vaultClientConfig records in the state the Insecure
flag it handed to ConfigureTLS. -/
theorem vaultClientConfig_tls (ext : Ext) (config : VaultConfig) (s : St) :
    (vaultClientConfig ext config s).1.tlsConfigured = some config.insecure := by
  unfold vaultClientConfig
  repeat' split
  all_goals simp

/-- C5: in any run in which the Raft snapshot stream call fails, control
never reaches the uploader: the upload call counter and the list of upload
calls end exactly as they started. -/
theorem stream_failure_no_upload (ext : Ext) (env : Env) (s : St)
    (hSnap : ext.snapshotOk = false) :
    (mainRun ext env s).1.uploadCalls = s.uploadCalls ∧
    (mainRun ext env s).1.uploads = s.uploads := by
  unfold mainRun
  split
  next => exact ⟨rfl, rfl⟩
  next insecure hb =>
    split
    next s1 e hvc =>
      have f := vaultClientConfig_frame ext (envVaultConfig env insecure) s
      rw [hvc] at f
      exact ⟨f.2.2.2.2.2.1, f.2.2.2.2.2.2⟩
    next s1 hvc =>
      have f := vaultClientConfig_frame ext (envVaultConfig env insecure) s
      rw [hvc] at f
      exact ⟨f.2.2.2.2.2.1, f.2.2.2.2.2.2⟩
    next s1 c hvc =>
      have f := vaultClientConfig_frame ext (envVaultConfig env insecure) s
      rw [hvc] at f
      split
      next s2 e hrs =>
        have g := vaultRaftSnapshot_frame ext c
          (envVaultConfig env insecure).snapshotPath s1
        rw [hrs] at g
        exact ⟨g.2.2.1.trans f.2.2.2.2.2.1, g.2.2.2.2.1.trans f.2.2.2.2.2.2⟩
      next s2 hrs =>
        have g := vaultRaftSnapshot_frame ext c
          (envVaultConfig env insecure).snapshotPath s1
        rw [hrs] at g
        exact ⟨g.2.2.1.trans f.2.2.2.2.2.1, g.2.2.2.2.1.trans f.2.2.2.2.2.2⟩
      next s2 fh hrs =>
        have hok := (vaultRaftSnapshot_ok ext c
          (envVaultConfig env insecure).snapshotPath s1 s2 fh hrs).2.1
        rw [hSnap] at hok
        exact Bool.noConfusion hok

/-- C6: rerunning the pipeline against the same staging path truncates
whatever a previous run left there: after a second successful run the
staging file holds exactly the second run's snapshot payload (and is
closed), never a concatenation with older content. -/
theorem second_run_truncates (ext1 ext2 : Ext) (env : Env) (s0 sOut : St)
    (loc : String)
    (h : mainRun ext2 env (mainRun ext1 env s0).1 =
      (sOut, MainResult.success loc)) :
    sOut.content = some ext2.snapshotPayload ∧ sOut.writeOpen = false := by
  obtain ⟨b, s1, c, s2, fh, u, hb, hvc, hrs, hup, hloc⟩ :=
    mainRun_success ext2 env (mainRun ext1 env s0).1 sOut loc h
  obtain ⟨-, -, -, -, hs2⟩ :=
    vaultRaftSnapshot_ok ext2 c env.vaultSnapshotPath s1 s2 fh hrs
  obtain ⟨-, -, -, -, -, hs3⟩ :=
    snapshotS3Upload_ok ext2 (envAWSConfig env) fh.name s2 sOut u hup
  subst hs2 hs3
  simp

/-- C7: a failing close of the staging file converts an otherwise
successful operation into a failure: a snapshot whose stream succeeded but
whose deferred close fails ends the stage fatally, an upload whose transfer
succeeded but whose deferred close fails ends the stage fatally, and no run
with a failing close of either descriptor can ever report success. -/
theorem close_failure_is_fatal (ext : Ext) :
    (∀ client p s, ext.openWriteOk = true → ext.snapshotOk = true →
      ext.closeWriteOk = false →
      (vaultRaftSnapshot ext client p s).2 = Res.fatal) ∧
    (∀ config p (s : St), ext.openReadOk = true → s.content.isSome = true →
      ext.uploadOk = true → ext.closeReadOk = false →
      (snapshotS3Upload ext config p s).2 = Res.fatal) ∧
    ((ext.closeWriteOk = false ∨ ext.closeReadOk = false) →
      ∀ env s sOut loc, mainRun ext env s ≠ (sOut, MainResult.success loc)) := by
  refine ⟨fun client p s hOpen hSnap hClose => ?_,
    fun config p s hor hcs hup hcl => ?_, fun hOr env s sOut loc h => ?_⟩
  · simp [vaultRaftSnapshot, snapshotFileCloseW, closeWriteFd, hOpen, hSnap,
      hClose]
  · simp [snapshotS3Upload, snapshotFileCloseR, closeReadFd, hor, hcs, hup,
      hcl]
  · obtain ⟨b, s1, c, s2, fh, u, hb, hvc, hrs, hup, hloc⟩ :=
      mainRun_success ext env s sOut loc h
    have hw := (vaultRaftSnapshot_ok ext c env.vaultSnapshotPath s1 s2 fh
      hrs).2.2.1
    have hr := (snapshotS3Upload_ok ext (envAWSConfig env) fh.name s2 sOut u
      hup).2.2.2.1
    rcases hOr with hc | hc
    · rw [hc] at hw
      exact Bool.noConfusion hw
    · rw [hc] at hr
      exact Bool.noConfusion hr

/-- C8: when the remote upload call fails the upload stage never returns an
upload result, so no location is reported, and every such run terminates
with a non-zero exit status. -/
theorem upload_failure_no_location (ext : Ext)
    (hUp : ext.uploadOk = false) :
    (∀ config p s s3 u, snapshotS3Upload ext config p s ≠ (s3, Res.ok u)) ∧
    (∀ env s, (mainRun ext env s).2 = MainResult.fatalExit) := by
  constructor
  · intro config p s s3 u h
    exact snapshotS3Upload_transferFail ext config p s s3 u hUp h
  · intro env s
    rcases hm : mainRun ext env s with ⟨sOut, r⟩
    cases r with
    | fatalExit => rfl
    | success loc =>
      obtain ⟨b, s1, c, s2, fh, u, hb, hvc, hrs, hup, hloc⟩ :=
        mainRun_success ext env s sOut loc hm
      exact absurd hup
        (snapshotS3Upload_transferFail ext (envAWSConfig env) fh.name s2 sOut
          u hUp)

/-- C9: the TLS-skip-verify environment value is boolean-parsed and an
unparsable value is fatal before any stage runs; the parsed flag is what
ConfigureTLS receives (the final state records it on every path through the
client stage) and ends up as the TLS insecure flag of any client built;
when TLS setup itself fails, the stage fails with the connection
configuration error. -/
theorem skip_verify_tls_config (ext : Ext) (env : Env) (s : St) :
    (parseBool env.vaultSkipVerify = none →
      mainRun ext env s = (s, MainResult.fatalExit)) ∧
    (∀ config : VaultConfig, ext.configureTLSOk = false →
      vaultClientConfig ext config s =
        ({ s with tlsConfigured := some config.insecure },
          Res.err VError.connectionConfig)) ∧
    (∀ b, parseBool env.vaultSkipVerify = some b →
      ∀ sOut r, mainRun ext env s = (sOut, r) →
        sOut.tlsConfigured = some b) ∧
    (∀ (config : VaultConfig) s1 c,
      vaultClientConfig ext config s = (s1, Res.ok c) →
        c.insecureTLS = config.insecure) := by
  refine ⟨fun hpb => ?_, fun config hTLS => ?_, fun b hb sOut r hm => ?_,
    fun config s1 c h => (vaultClientConfig_ok ext config s s1 c h).2.1⟩
  · simp [mainRun, hpb]
  · simp [vaultClientConfig, hTLS]
  · unfold mainRun at hm
    split at hm
    next hpb => rw [hpb] at hb; exact Option.noConfusion hb
    next insecure hpb =>
      rw [hpb, Option.some.injEq] at hb
      subst hb
      have hT := vaultClientConfig_tls ext (envVaultConfig env insecure) s
      split at hm
      next s1 e hvc =>
        obtain ⟨h1, -⟩ := Prod.mk.injEq .. |>.mp hm
        rw [hvc] at hT
        rw [← h1]
        exact hT
      next s1 hvc =>
        obtain ⟨h1, -⟩ := Prod.mk.injEq .. |>.mp hm
        rw [hvc] at hT
        rw [← h1]
        exact hT
      next s1 c hvc =>
        rw [hvc] at hT
        have gT := vaultRaftSnapshot_frame ext c
          (envVaultConfig env insecure).snapshotPath s1
        split at hm
        next s2 e hrs =>
          obtain ⟨h1, -⟩ := Prod.mk.injEq .. |>.mp hm
          rw [hrs] at gT
          rw [← h1]
          exact gT.2.2.2.2.2.trans hT
        next s2 hrs =>
          obtain ⟨h1, -⟩ := Prod.mk.injEq .. |>.mp hm
          rw [hrs] at gT
          rw [← h1]
          exact gT.2.2.2.2.2.trans hT
        next s2 fh hrs =>
          rw [hrs] at gT
          have uT := snapshotS3Upload_frame ext (envAWSConfig env) fh.name s2
          split at hm
          all_goals
            obtain ⟨h1, -⟩ := Prod.mk.injEq .. |>.mp hm
          all_goals
            rename_i hup
          all_goals
            rw [hup] at uT
          all_goals
            rw [← h1]
          all_goals
            exact (uT.2.2.2.2.trans gT.2.2.2.2.2).trans hT

/-! ### Witnesses

Concrete instantiations of the claim theorems, discharging their
hypotheses at the fixtures. -/

/-- Witness for C1: on the all-success fixture the single upload call used
bucket bkt and key nightly-snap.out derived from prefix nightly and path
/tmp/snap.out, and the run left a closed staging file. -/
theorem upload_key_and_staged_file_witness :
    ((mainRun extAll envA St.init).1.uploads =
      [("bkt", "nightly-snap.out", [1, 2, 3])]) ∧
    ((mainRun extAll envA St.init).1.uploads = St.init.uploads ++
      [(envA.s3Bucket, envA.s3Pfx ++ "-" ++ filepathBase envA.vaultSnapshotPath,
        extAll.snapshotPayload)] ∧
    (mainRun extAll envA St.init).1.content = some extAll.snapshotPayload ∧
    (mainRun extAll envA St.init).1.writeOpen = false ∧
    (mainRun extAll envA St.init).1.readOpen = false) :=
  ⟨by decide,
    upload_key_and_staged_file extAll envA St.init
      (mainRun extAll envA St.init).1 "LOC" (by decide)⟩

/-- Witness for C2: the 3-byte token abc is rejected with the invalid-token
error and the 26-byte token is set directly on the client, with the login
counter untouched in both runs. -/
theorem token_credential_validation_witness :
    (vaultClientConfig extAll cfgShort St.init =
      ({ St.init with tlsConfigured := some cfgShort.insecure },
        Res.err VError.invalidToken)) ∧
    (vaultClientConfig extAll cfgTok St.init =
      ({ St.init with tlsConfigured := some cfgTok.insecure },
        Res.ok { addr := cfgTok.vaultAddr
                 tokenSet := some cfgTok.token
                 authedViaIAM := false
                 insecureTLS := cfgTok.insecure })) :=
  ⟨(token_credential_validation extAll cfgShort St.init rfl rfl
      (by decide)).1 (by decide),
    (token_credential_validation extAll cfgTok St.init rfl rfl
      (by decide)).2.1 (by decide)⟩

/-- Witness for C3: with the aws-iam sentinel the login network call is
made on the all-success fixture, and with a failing login the stage does
not return the client it would otherwise have returned. -/
theorem sentinel_delegates_to_iam_witness :
    ((vaultClientConfig extAll cfgIAM St.init).1.loginCalls =
      St.init.loginCalls + 1) ∧
    (vaultClientConfig { extAll with loginErr := true } cfgIAM St.init ≠
      ({ St.init with tlsConfigured := some cfgIAM.insecure
                      loginCalls := St.init.loginCalls + 1 },
        Res.ok { addr := cfgIAM.vaultAddr
                 tokenSet := none
                 authedViaIAM := true
                 insecureTLS := cfgIAM.insecure })) :=
  ⟨(sentinel_delegates_to_iam extAll cfgIAM St.init rfl rfl rfl).1 rfl,
    (sentinel_delegates_to_iam { extAll with loginErr := true } cfgIAM
      St.init rfl rfl rfl).2.1 (Or.inr (Or.inl rfl)) _ _⟩

/-- Witness for C4: on the all-success fixture the snapshot stage returns
the handle to /tmp/snap.out with the payload staged and the descriptor
closed once; on the stream-failure fixture the file is closed and no
handle to it is returned. -/
theorem snapshot_file_lifecycle_witness :
    (vaultRaftSnapshot extAll clientA "/tmp/snap.out" St.init =
      ({ St.init with content := some extAll.snapshotPayload,
                      writeOpen := false, writeCloseCount := 1 },
        Res.ok { name := "/tmp/snap.out" })) ∧
    ((vaultRaftSnapshot { extAll with snapshotOk := false } clientA
        "/tmp/snap.out" St.init).1.writeOpen = false ∧
      ∀ s2 fh, vaultRaftSnapshot { extAll with snapshotOk := false } clientA
        "/tmp/snap.out" St.init ≠ (s2, Res.ok fh)) :=
  ⟨(snapshot_file_lifecycle extAll clientA "/tmp/snap.out" St.init rfl).1
      rfl rfl,
    (snapshot_file_lifecycle { extAll with snapshotOk := false } clientA
      "/tmp/snap.out" St.init rfl).2 rfl⟩

/-- Witness for C5: on the stream-failure fixture the whole run makes zero
upload calls. -/
theorem stream_failure_no_upload_witness :
    (mainRun { extAll with snapshotOk := false } envA St.init).1.uploadCalls =
      St.init.uploadCalls ∧
    (mainRun { extAll with snapshotOk := false } envA St.init).1.uploads =
      St.init.uploads :=
  stream_failure_no_upload { extAll with snapshotOk := false } envA St.init
    rfl

/-- Witness for C6: after a first run staging payload [1, 2, 3], a second
successful run with payload [7, 7] leaves the staging file holding exactly
[7, 7]. -/
theorem second_run_truncates_witness :
    (mainRun { extAll with snapshotPayload := [7, 7] } envA
        (mainRun extAll envA St.init).1).1.content =
      some ({ extAll with snapshotPayload := [7, 7] } : Ext).snapshotPayload ∧
    (mainRun { extAll with snapshotPayload := [7, 7] } envA
        (mainRun extAll envA St.init).1).1.writeOpen = false :=
  second_run_truncates extAll { extAll with snapshotPayload := [7, 7] } envA
    St.init
    (mainRun { extAll with snapshotPayload := [7, 7] } envA
      (mainRun extAll envA St.init).1).1
    "LOC" (by decide)

/-- Witness for C7: with the write-descriptor close failing after a
successful stream, the snapshot stage ends fatally. -/
theorem close_failure_is_fatal_witness :
    (vaultRaftSnapshot { extAll with closeWriteOk := false } clientA
      "/tmp/snap.out" St.init).2 = Res.fatal :=
  (close_failure_is_fatal { extAll with closeWriteOk := false }).1 clientA
    "/tmp/snap.out" St.init rfl rfl rfl

/-- Witness for C8: with the upload call failing, the run exits with a
non-zero status. -/
theorem upload_failure_no_location_witness :
    (mainRun { extAll with uploadOk := false } envA St.init).2 =
      MainResult.fatalExit :=
  (upload_failure_no_location { extAll with uploadOk := false } rfl).2 envA
    St.init

/-- Witness for C9: the unparsable value bogus aborts the run immediately,
and with the parsable value 1 the run records that ConfigureTLS received
the insecure flag true. -/
theorem skip_verify_tls_config_witness :
    (mainRun extAll { envA with vaultSkipVerify := "bogus" } St.init =
      (St.init, MainResult.fatalExit)) ∧
    ((mainRun extAll { envA with vaultSkipVerify := "1" } St.init).1.tlsConfigured =
      some true) :=
  ⟨(skip_verify_tls_config extAll { envA with vaultSkipVerify := "bogus" }
      St.init).1 (by decide),
    (skip_verify_tls_config extAll { envA with vaultSkipVerify := "1" }
      St.init).2.2.1 true (by decide)
      (mainRun extAll { envA with vaultSkipVerify := "1" } St.init).1
      (mainRun extAll { envA with vaultSkipVerify := "1" } St.init).2 rfl⟩

/-- Witness for C10: on the stream-failure fixture Close ran twice on the
staging descriptor and the stage terminated the process. -/
theorem stream_failure_double_close_witness :
    (vaultRaftSnapshot { extAll with snapshotOk := false } clientA
      "/tmp/snap.out" St.init).1.writeCloseCount = 2 ∧
    (vaultRaftSnapshot { extAll with snapshotOk := false } clientA
      "/tmp/snap.out" St.init).2 = Res.fatal :=
  stream_failure_double_close { extAll with snapshotOk := false } clientA
    "/tmp/snap.out" St.init rfl rfl

end VaultRaftBackup
